import Mathlib

/-!
Verification development for the Hospital-Analytics NLQ script (`4app.py`).

The script is a linear Streamlit page: credential gate, database handle,
LLM initialization, and a button-driven action that runs the chain, extracts
a SQL string from the free-form response, executes it against SQLite, and
renders the results.  We embed the script shallowly: Python strings become
lists of characters, the Streamlit/database/LLM environment becomes an
explicit oracle record, and a run of the script becomes a pure function
producing a trace of user-visible / effectful events plus a halt status.
-/

namespace HospitalNLQ

/-- Python strings, embedded as lists of characters. -/
abbrev Str := List Char

/-- Turn a Lean string literal into the embedded string type. -/
def strLit (s : String) : Str := s.data

/-- The default whitespace set of Python `str.strip` (ASCII part):
space, tab, newline, carriage return, vertical tab, form feed. -/
def pyIsSpace (c : Char) : Bool :=
  c = ' ' || c = '\t' || c = '\n' || c = '\r' || c = '\x0b' || c = '\x0c'

/-- Remove leading whitespace (left half of Python `str.strip`). -/
def stripLeft (s : Str) : Str := s.dropWhile pyIsSpace

/-- Remove trailing whitespace (right half of Python `str.strip`). -/
def stripRight (s : Str) : Str := (s.reverse.dropWhile pyIsSpace).reverse

/-- Python `s.strip()`: remove leading and trailing whitespace. -/
def pyStrip (s : Str) : Str := stripRight (stripLeft s)

/-- Python `s.rstrip(";")`: remove every trailing semicolon character. -/
def rstripSemi (s : Str) : Str :=
  (s.reverse.dropWhile (fun c => c = ';')).reverse

/-- Python `s.upper()`, character by character (ASCII-faithful). -/
def pyUpper (s : Str) : Str := s.map Char.toUpper

/-- Does `pat` occur at the very start of `s`? -/
def startsWith : Str → Str → Bool
  | [], _ => true
  | _ :: _, [] => false
  | p :: ps, c :: cs => p = c && startsWith ps cs

/-- Index of the first occurrence of `pat` in `s`
(Python `s.find(pat)` restricted to the found case; `none` when absent,
which is also exactly when Python `pat in s` is false). -/
def findSub (pat : Str) : Str → Option Nat
  | [] => if startsWith pat [] then some 0 else none
  | c :: cs =>
      if startsWith pat (c :: cs) then some 0
      else (findSub pat cs).map (fun i => i + 1)

/-- The keyword searched for at line 89 of `4app.py`. -/
def SELECT : Str := ['S', 'E', 'L', 'E', 'C', 'T']

/-- Lines 89-93 of `4app.py`:

if "SELECT" in response.upper():
    sql_start = response.upper().find("SELECT")
    sql_query = response[sql_start:].strip().rstrip(";")
else:
    sql_query = response.strip()
-/
def extract_sql (response : Str) : Str :=
  match findSub SELECT (pyUpper response) with
  | some sql_start => rstripSemi (pyStrip (response.drop sql_start))
  | none => pyStrip response

/-- Python string falsiness: `not s` is true exactly for the empty string
(line 28, `if not api_key:`). -/
def pyStrFalsy (s : Str) : Bool := s = []

/-! ## Data model of the runtime environment and the event trace -/

/-- A cell of a result row, as fetched from SQLite. -/
inductive Cell
  | intV (n : Int)
  | realNum (q : Int)
  | textV (s : Str)
  | nullV
deriving DecidableEq, Repr

/-- A fetched row (Python tuple from `cursor.fetchall()`). -/
abbrev Row := List Cell

/-- A column header of a rendered table: either a default positional label
(what pandas/Streamlit assign when a bare list of tuples is passed to
`st.dataframe`) or an explicit column name. -/
inductive Header
  | pos (n : Nat)
  | name (s : Str)
deriving DecidableEq, Repr

/-- User-visible and effectful events, in script order.  Pure page layout
(title, intro markdown, spinner) is omitted; every banner, table, and
external-resource action of lines 26-124 is an event. -/
inductive Event
  | warn (msg : Str)
  | success (msg : Str)
  | errorMsg (msg : Str)
  | markdown (msg : Str)
  | codeBlock (s : Str)
  | info (msg : Str)
  | showTable (rows : List Row) (headers : List Header) (wide : Bool)
  | openLangchainDB
  | initLLM
  | modelCall (question : Str)
  | connectDB
  | execSQL (s : Str)
  | closeConn
deriving DecidableEq, Repr

/-- Outcome of `conn.execute(sql)` / `cursor.fetchall()` /
`cursor.description`, as one oracle answer.  `fail` is an exception raised
by `execute` itself; `ok rows desc` is a successful execute+fetchall with
`desc = none` modelling sqlite3's `cursor.description is None` (the case
for statements that return no data, e.g. DDL/DML), which makes the
comprehension at line 103 raise a TypeError. -/
inductive ExecResult
  | fail (msg : Str)
  | ok (rows : List Row) (description : Option (List Str))

/-- The oracle environment of one script run: user inputs and the outcomes
of every external call the script can make. -/
structure Env where
  apiKey : Str
  dbOpen : Except Str Unit
  llmInit : Except Str Unit
  userQuery : Str
  buttonPressed : Bool
  chainResponse : Except Str Str
  dbExec : Str → ExecResult

/-- How a run ends: `stopped` models `st.stop()`, `completed` a normal
fall-through to the end of the script. -/
inductive Status
  | stopped
  | completed
deriving DecidableEq, Repr

/-! ## Message strings of the script (verbatim, except that the two
Python exception texts are rendered without their quote characters). -/

def keyWarnMsg : Str := strLit "Please enter your Groq API key to continue."

def dbOkMsg : Str := strLit "✅ Connected to hospital_warehouse.db successfully!"

def dbFailPre : Str := strLit "Database connection failed: "

def llmOkMsg : Str := strLit "✅ Connected to Groq LLM successfully!"

def llmFailPre : Str := strLit "Groq API initialization failed: "

def questionWarnMsg : Str := strLit "Please enter a valid question."

def genSqlHdr : Str := strLit "Generated SQL Query"

def resultsHdr : Str := strLit "Query Results"

def noResultsMsg : Str := strLit "No results found for this query."

def sqlErrPre : Str := strLit "SQL Execution Error: "

def outerErrPre : Str := strLit "Error while processing query: "

/-- CPython renders this TypeError as: NoneType object is not iterable
(with quotes around NoneType, elided here). -/
def noneTypeMsg : Str := strLit "NoneType object is not iterable"

/-- CPython renders this NameError as: name rows is not defined
(with quotes around rows, elided here). -/
def nameErrRowsMsg : Str := strLit "name rows is not defined"

/-! ## The script as a trace-producing function -/

/-- Default headers pandas assigns to a bare list of tuples: positional
labels `0 .. M-1`, `M` taken from the first row. -/
def defaultHeaders (rows : List Row) : List Header :=
  (List.range (match rows with | [] => 0 | r :: _ => r.length)).map Header.pos

/-- Lines 107-111 (and their duplicate 118-122): the Query Results block,
executed with `rows` bound.  `wide` records `use_container_width=True`
(present only in the duplicated block). -/
def displayBlock (rows : List Row) (wide : Bool) : List Event :=
  [Event.markdown resultsHdr] ++
    (if rows = [] then [Event.info noResultsMsg]
     else [Event.showTable rows (defaultHeaders rows) wide])

/-- Lines 99-114: connect, inner try (execute, fetchall, columns, close,
display), inner except (error banner, close).  Returns the events and the
final binding state of the Python variable `rows` (`none` = never
assigned, so a later reference raises NameError). -/
def innerExec (env : Env) (sql : Str) : List Event × Option (List Row) :=
  let pre : List Event := [Event.connectDB, Event.execSQL sql]
  match env.dbExec sql with
  | ExecResult.fail msg =>
      (pre ++ [Event.errorMsg (sqlErrPre ++ msg), Event.closeConn], none)
  | ExecResult.ok rows none =>
      (pre ++ [Event.errorMsg (sqlErrPre ++ noneTypeMsg), Event.closeConn],
       some rows)
  | ExecResult.ok rows (some _cols) =>
      (pre ++ [Event.closeConn] ++ displayBlock rows false, some rows)

/-- Lines 78-124: the body of `if st.button("Run Query")`.  The outer
try/except covers `chain.run`, the extraction, the inner block, and the
duplicated display block; a NameError from the duplicated block's `if
rows:` (line 119) is caught by the outer except. -/
def runQueryAction (env : Env) : List Event :=
  if pyStrip env.userQuery = [] then [Event.warn questionWarnMsg]
  else
    match env.chainResponse with
    | Except.error e =>
        [Event.modelCall env.userQuery, Event.errorMsg (outerErrPre ++ e)]
    | Except.ok response =>
        let sql := extract_sql response
        let head := [Event.modelCall env.userQuery,
                     Event.markdown genSqlHdr, Event.codeBlock sql]
        let inner := innerExec env sql
        match inner.2 with
        | none =>
            head ++ inner.1 ++
              [Event.markdown resultsHdr,
               Event.errorMsg (outerErrPre ++ nameErrRowsMsg)]
        | some rows =>
            head ++ inner.1 ++ displayBlock rows true

/-- Lines 26-124: the whole script, as one pass over the oracle. -/
def runScript (env : Env) : List Event × Status :=
  if pyStrFalsy env.apiKey then
    ([Event.warn keyWarnMsg], Status.stopped)
  else
    match env.dbOpen with
    | Except.error e =>
        ([Event.openLangchainDB, Event.errorMsg (dbFailPre ++ e)],
         Status.stopped)
    | Except.ok _ =>
        match env.llmInit with
        | Except.error e =>
            ([Event.openLangchainDB, Event.success dbOkMsg,
              Event.initLLM, Event.errorMsg (llmFailPre ++ e)],
             Status.stopped)
        | Except.ok _ =>
            let pre := [Event.openLangchainDB, Event.success dbOkMsg,
                        Event.initLLM, Event.success llmOkMsg]
            if env.buttonPressed then
              (pre ++ runQueryAction env, Status.completed)
            else (pre, Status.completed)

/-- The successful stage-1..4 banner prefix of every run that reaches the
button handler. -/
def stagePrefix : List Event :=
  [Event.openLangchainDB, Event.success dbOkMsg,
   Event.initLLM, Event.success llmOkMsg]

/-! ## Declarative occurrence predicates (the spec's vocabulary) -/

/-- The pattern occurs in `s` at position `i`. -/
def occursAt (pat s : Str) (i : Nat) : Prop :=
  startsWith pat (s.drop i) = true

/-- Position `i` is the first occurrence of `pat` in `s`. -/
def firstOccursAt (pat s : Str) (i : Nat) : Prop :=
  occursAt pat s i ∧ ∀ j < i, ¬ occursAt pat s j

/-- The pattern occurs nowhere in `s`. -/
def noOccurrence (pat s : Str) : Prop :=
  ∀ j, ¬ occursAt pat s j

/-- Modelled on the words of the spec, for comparison with `extract_sql`:
take a tail of the response and remove its surrounding whitespace and any
trailing semicolons, so that the result neither begins nor ends with
whitespace and does not end with a semicolon. -/
def specTrimTail (s : Str) : Str :=
  ((stripLeft s).reverse.dropWhile (fun c => pyIsSpace c || c = ';')).reverse

instance occursAt_decidable (pat s : Str) (i : Nat) :
    Decidable (occursAt pat s i) := by
  unfold occursAt; infer_instance

/-! ## Sample environments used by closed theorems and witnesses -/

/-- A typical model response for the running example question. -/
def demoResponse : Str :=
  strLit "SELECT department, SUM(cost) FROM treatments GROUP BY department;"

/-- Rows a successful run of the demo query could fetch. -/
def demoRows : List Row :=
  [[Cell.textV (strLit "ICU"), Cell.intV 9400],
   [Cell.textV (strLit "ER"), Cell.intV 5300]]

/-- The column names sqlite reports for the demo query. -/
def demoCols : List Str :=
  [strLit "department", strLit "total_cost"]

/-- A fully successful environment: valid key, database and LLM up,
button pressed, model answers with SQL, execution succeeds. -/
def baseEnv : Env :=
  { apiKey := strLit "gsk-demo-key"
    dbOpen := Except.ok ()
    llmInit := Except.ok ()
    userQuery := strLit "Show total treatment cost by department"
    buttonPressed := true
    chainResponse := Except.ok demoResponse
    dbExec := fun _ => ExecResult.ok demoRows (some demoCols) }

/-- Environment with a whitespace-only credential; the button is not even
pressed, so everything after the gate is the stage banners. -/
def envWsKey : Env :=
  { baseEnv with apiKey := strLit " ", buttonPressed := false }

/-- Environment in which executing the generated SQL raises. -/
def envExecFail : Env :=
  { baseEnv with
    dbExec := fun _ => ExecResult.fail (strLit "no such table: treatments") }

/-- Environment in which the model answers with a statement that returns
no data: execute succeeds, `fetchall` gives no rows, and
`cursor.description` is missing, so column extraction raises. -/
def envDescNone : Env :=
  { baseEnv with
    chainResponse := Except.ok (strLit "DELETE FROM treatments")
    dbExec := fun _ => ExecResult.ok [] none }

/-- Environment in which the generated query succeeds with zero rows. -/
def envZeroRows : Env :=
  { baseEnv with dbExec := fun _ => ExecResult.ok [] (some demoCols) }

/-- Environment in which the model answers with a destructive statement. -/
def envDrop : Env :=
  { baseEnv with chainResponse := Except.ok (strLit "DROP TABLE patients") }

/-! ## Characterization of `findSub` -/

theorem findSub_eq_some_of_first (pat : Str) :
    ∀ (s : Str) (i : Nat), startsWith pat (s.drop i) = true →
      (∀ j < i, startsWith pat (s.drop j) = false) →
      findSub pat s = some i := by
  intro s
  induction s with
  | nil =>
      intro i h1 h2
      have hi : i = 0 := by
        by_contra hne
        have h0 := h2 0 (Nat.pos_of_ne_zero hne)
        simp [List.drop_nil] at h0 h1
        exact absurd h1 (by simp [h0])
      subst hi
      simp [List.drop_nil] at h1
      simp [findSub, h1]
  | cons c cs ih =>
      intro i h1 h2
      cases i with
      | zero =>
          simp at h1
          simp [findSub, h1]
      | succ i =>
          have h0 : startsWith pat (c :: cs) = false := by
            have := h2 0 (Nat.succ_pos i)
            simpa using this
          have hrest : findSub pat cs = some i := by
            apply ih
            · simpa [List.drop_succ_cons] using h1
            · intro j hj
              have := h2 (j + 1) (Nat.succ_lt_succ hj)
              simpa [List.drop_succ_cons] using this
          simp [findSub, h0, hrest]

theorem findSub_eq_none_of_none (pat : Str) :
    ∀ s : Str, (∀ j, startsWith pat (s.drop j) = false) →
      findSub pat s = none := by
  intro s
  induction s with
  | nil =>
      intro h
      have h0 := h 0
      simp [List.drop_nil] at h0
      simp [findSub, h0]
  | cons c cs ih =>
      intro h
      have h0 : startsWith pat (c :: cs) = false := by simpa using h 0
      have hrest : findSub pat cs = none := by
        apply ih
        intro j
        simpa [List.drop_succ_cons] using h (j + 1)
      simp [findSub, h0, hrest]

/-- To rule out every occurrence of a nonempty pattern it is enough to
rule out the positions inside the string. -/
theorem noOccurrence_of_bounded (pat s : Str) (hne : pat ≠ [])
    (h : ∀ j < s.length, startsWith pat (s.drop j) = false) :
    noOccurrence pat s := by
  intro j
  unfold occursAt
  by_cases hj : j < s.length
  · simp [h j hj]
  · have hdrop : s.drop j = [] :=
      List.drop_eq_nil_of_le (Nat.le_of_not_lt hj)
    rw [hdrop]
    cases pat with
    | nil => exact absurd rfl hne
    | cons p ps => simp [startsWith]

/-! ## Supporting lemmas about the embedded Python string primitives -/

/-- A string of whitespace characters strips to the empty string. -/
theorem pyStrip_eq_nil_of_all_space (s : Str)
    (h : ∀ c ∈ s, pyIsSpace c = true) : pyStrip s = [] := by
  have h1 : stripLeft s = [] := by
    unfold stripLeft
    rw [List.dropWhile_eq_nil_iff]
    exact h
  simp [pyStrip, h1, stripRight]

/-- Every run that passes the credential gate, opens the database, builds
the LLM, and has the button pressed is the stage banners followed by the
query action. -/
theorem runScript_action (env : Env)
    (hk : pyStrFalsy env.apiKey = false)
    (hdb : env.dbOpen = Except.ok ())
    (hllm : env.llmInit = Except.ok ())
    (hb : env.buttonPressed = true) :
    runScript env = (stagePrefix ++ runQueryAction env, Status.completed) := by
  simp [runScript, hk, hdb, hllm, hb, stagePrefix]

/-- The action trace when the model call raises no exception and the
execution of the extracted SQL fails: generated-SQL display, inner error
banner with connection close, then the duplicated results block whose
reference to the never-assigned `rows` becomes the outer NameError
banner. -/
theorem runQueryAction_execFail (env : Env) (response m : Str)
    (hq : pyStrip env.userQuery ≠ [])
    (hresp : env.chainResponse = Except.ok response)
    (hexec : env.dbExec (extract_sql response) = ExecResult.fail m) :
    runQueryAction env =
      [Event.modelCall env.userQuery, Event.markdown genSqlHdr,
       Event.codeBlock (extract_sql response),
       Event.connectDB, Event.execSQL (extract_sql response),
       Event.errorMsg (sqlErrPre ++ m), Event.closeConn,
       Event.markdown resultsHdr,
       Event.errorMsg (outerErrPre ++ nameErrRowsMsg)] := by
  simp [runQueryAction, hq, hresp, innerExec, hexec]

/-- The action trace when execution succeeds but `cursor.description` is
missing: the column comprehension raises, the inner handler reports it and
closes the connection, and the duplicated block then renders from the
already-assigned `rows`. -/
theorem runQueryAction_descNone (env : Env) (response : Str)
    (rows : List Row)
    (hq : pyStrip env.userQuery ≠ [])
    (hresp : env.chainResponse = Except.ok response)
    (hexec : env.dbExec (extract_sql response) = ExecResult.ok rows none) :
    runQueryAction env =
      [Event.modelCall env.userQuery, Event.markdown genSqlHdr,
       Event.codeBlock (extract_sql response),
       Event.connectDB, Event.execSQL (extract_sql response),
       Event.errorMsg (sqlErrPre ++ noneTypeMsg), Event.closeConn] ++
      displayBlock rows true := by
  simp [runQueryAction, hq, hresp, innerExec, hexec]

/-- The action trace of a fully successful execution: the results block is
rendered twice, once from line 107-111 and once from its duplicate at
lines 118-122. -/
theorem runQueryAction_ok (env : Env) (response : Str)
    (rows : List Row) (cols : List Str)
    (hq : pyStrip env.userQuery ≠ [])
    (hresp : env.chainResponse = Except.ok response)
    (hexec : env.dbExec (extract_sql response) =
      ExecResult.ok rows (some cols)) :
    runQueryAction env =
      [Event.modelCall env.userQuery, Event.markdown genSqlHdr,
       Event.codeBlock (extract_sql response),
       Event.connectDB, Event.execSQL (extract_sql response),
       Event.closeConn] ++
      displayBlock rows false ++ displayBlock rows true := by
  simp [runQueryAction, hq, hresp, innerExec, hexec]

/-- The results block never executes SQL. -/
theorem execSQL_not_mem_displayBlock (s : Str) (rows : List Row)
    (w : Bool) : Event.execSQL s ∉ displayBlock rows w := by
  unfold displayBlock
  by_cases h : rows = [] <;> simp [h]

/-- The results block never shows an error banner. -/
theorem errorMsg_not_mem_displayBlock (msg : Str) (rows : List Row)
    (w : Bool) : Event.errorMsg msg ∉ displayBlock rows w := by
  unfold displayBlock
  by_cases h : rows = [] <;> simp [h]

/-- The results block never opens or closes a connection. -/
theorem connEvents_not_mem_displayBlock (rows : List Row) (w : Bool) :
    Event.connectDB ∉ displayBlock rows w ∧
    Event.closeConn ∉ displayBlock rows w := by
  unfold displayBlock
  by_cases h : rows = [] <;> simp [h]

/-! ## Claim C1 -/

/-- C1 (counterexample): the claim says the extracted SQL is the response
tail with any trailing semicolon and surrounding whitespace removed.  On
the response "SELECT 1 ;" the first occurrence of SELECT is position 0,
the code extracts "SELECT 1 " with a trailing whitespace character, but a
tail with surrounding whitespace and trailing semicolons removed is
"SELECT 1".  So the extracted string differs from what the claim states. -/
theorem C1_counterexample :
    firstOccursAt SELECT (pyUpper (strLit "SELECT 1 ;")) 0 ∧
    extract_sql (strLit "SELECT 1 ;") = strLit "SELECT 1 " ∧
    specTrimTail ((strLit "SELECT 1 ;").drop 0) = strLit "SELECT 1" ∧
    extract_sql (strLit "SELECT 1 ;") ≠
      specTrimTail ((strLit "SELECT 1 ;").drop 0) := by
  refine ⟨⟨by decide, ?_⟩, by decide, by decide, by decide⟩
  intro j hj
  exact absurd hj (Nat.not_lt_zero j)

/-- C1 (amended): for every response in which SELECT first occurs
case-insensitively at position i, the extracted Generated SQL is the
response from position i with surrounding whitespace removed first and all
trailing semicolons removed afterwards; whitespace that stood before a
removed semicolon is kept. -/
theorem C1_extract_from_first_select (response : Str) (i : Nat)
    (h : firstOccursAt SELECT (pyUpper response) i) :
    extract_sql response = rstripSemi (pyStrip (response.drop i)) := by
  have hf : findSub SELECT (pyUpper response) = some i := by
    apply findSub_eq_some_of_first
    · exact h.1
    · intro j hj
      have := h.2 j hj
      unfold occursAt at this
      simpa using this
  simp [extract_sql, hf]

/-- C1 (witness): the amended theorem applied to a response whose SELECT
occurs, in lower case, at position 6. -/
theorem C1_extract_from_first_select_witness :
    extract_sql (strLit "Sure: select * from staff;") =
      rstripSemi (pyStrip ((strLit "Sure: select * from staff;").drop 6)) := by
  apply C1_extract_from_first_select
  constructor
  · decide
  · decide

/-! ## Claim C7 -/

/-- C7: for every response with no case-insensitive occurrence of SELECT,
the extracted Generated SQL is the whole response with leading and
trailing whitespace trimmed. -/
theorem C7_no_select_fallback (response : Str)
    (h : noOccurrence SELECT (pyUpper response)) :
    extract_sql response = pyStrip response := by
  have hf : findSub SELECT (pyUpper response) = none := by
    apply findSub_eq_none_of_none
    intro j
    have := h j
    unfold occursAt at this
    simpa using this
  simp [extract_sql, hf]

/-- C7 (witness): the fallback theorem applied to a refusal message that
contains no SELECT. -/
theorem C7_no_select_fallback_witness :
    extract_sql (strLit "  I cannot answer that.  ") =
      pyStrip (strLit "  I cannot answer that.  ") := by
  apply C7_no_select_fallback
  apply noOccurrence_of_bounded
  · decide
  · decide

/-! ## Claim C2 -/

/-- C2 (counterexample): the claim says a whitespace-only credential halts
processing with a warning and nothing further executes.  With the
credential " " the gate of line 28 (`if not api_key:`) does not fire: no
warning is shown, the run completes instead of stopping, and the
database-handle stage executes. -/
theorem C2_counterexample :
    runScript envWsKey = (stagePrefix, Status.completed) ∧
    Event.openLangchainDB ∈ (runScript envWsKey).1 ∧
    Event.warn keyWarnMsg ∉ (runScript envWsKey).1 := by
  refine ⟨by decide, by decide, by decide⟩

/-- C2 (amended): for every empty credential string, processing halts
immediately with a warning: the whole trace is that warning, the run is
stopped, and no database connection, model call, or SQL execution attempt
occurs.  (A whitespace-only credential is not caught by the gate.) -/
theorem C2_empty_key_halts (env : Env) (h : env.apiKey = []) :
    runScript env = ([Event.warn keyWarnMsg], Status.stopped) ∧
    Event.openLangchainDB ∉ (runScript env).1 ∧
    Event.connectDB ∉ (runScript env).1 ∧
    (∀ q, Event.modelCall q ∉ (runScript env).1) ∧
    (∀ s, Event.execSQL s ∉ (runScript env).1) := by
  have hrun : runScript env = ([Event.warn keyWarnMsg], Status.stopped) := by
    simp [runScript, pyStrFalsy, h]
  refine ⟨hrun, ?_, ?_, ?_, ?_⟩ <;> simp [hrun]

/-- C2 (witness): the amended theorem applied to the empty credential. -/
theorem C2_empty_key_halts_witness :
    runScript { baseEnv with apiKey := [] } =
      ([Event.warn keyWarnMsg], Status.stopped) :=
  (C2_empty_key_halts { baseEnv with apiKey := [] } rfl).1

/-! ## Claim C10 -/

/-- C10: for every submitted question that is empty or whitespace only,
the action shows the warning and performs no model call and no SQL
execution attempt. -/
theorem C10_blank_question (env : Env)
    (hk : pyStrFalsy env.apiKey = false)
    (hdb : env.dbOpen = Except.ok ())
    (hllm : env.llmInit = Except.ok ())
    (hb : env.buttonPressed = true)
    (hq : ∀ c ∈ env.userQuery, pyIsSpace c = true) :
    Event.warn questionWarnMsg ∈ (runScript env).1 ∧
    (∀ q, Event.modelCall q ∉ (runScript env).1) ∧
    (∀ s, Event.execSQL s ∉ (runScript env).1) := by
  have hrun := runScript_action env hk hdb hllm hb
  have hstrip : pyStrip env.userQuery = [] :=
    pyStrip_eq_nil_of_all_space _ hq
  rw [hrun]
  simp [runQueryAction, hstrip, stagePrefix]

/-- C10 (witness): the blank-question theorem applied to a question of
three spaces in an otherwise healthy environment. -/
theorem C10_blank_question_witness :
    Event.warn questionWarnMsg ∈
      (runScript { baseEnv with userQuery := strLit "   " }).1 :=
  (C10_blank_question { baseEnv with userQuery := strLit "   " }
    (by decide) rfl rfl rfl (by decide)).1

/-! ## Claim C8 -/

/-- C8: whatever text the model returns, the executor passes the extracted
Generated SQL verbatim to the database: the executed string is exactly
`extract_sql response` with no validation or statement-type restriction
(the response, hence the statement kind, is arbitrary here), and nothing
else is ever executed. -/
theorem C8_verbatim_execution (env : Env) (response : Str)
    (hk : pyStrFalsy env.apiKey = false)
    (hdb : env.dbOpen = Except.ok ())
    (hllm : env.llmInit = Except.ok ())
    (hb : env.buttonPressed = true)
    (hq : pyStrip env.userQuery ≠ [])
    (hresp : env.chainResponse = Except.ok response) :
    Event.execSQL (extract_sql response) ∈ (runScript env).1 ∧
    (∀ s, Event.execSQL s ∈ (runScript env).1 →
      s = extract_sql response) := by
  rw [runScript_action env hk hdb hllm hb]
  cases hexec : env.dbExec (extract_sql response) with
  | fail m =>
      rw [runQueryAction_execFail env response m hq hresp hexec]
      constructor
      · simp
      · intro s hs
        simpa [stagePrefix] using hs
  | ok rows desc =>
      cases desc with
      | none =>
          rw [runQueryAction_descNone env response rows hq hresp hexec]
          constructor
          · simp
          · intro s hs
            simpa [stagePrefix, execSQL_not_mem_displayBlock] using hs
      | some cols =>
          rw [runQueryAction_ok env response rows cols hq hresp hexec]
          constructor
          · simp
          · intro s hs
            simpa [stagePrefix, execSQL_not_mem_displayBlock] using hs

/-- C8 (witness): a destructive model response is executed verbatim. -/
theorem C8_verbatim_execution_witness :
    Event.execSQL (extract_sql (strLit "DROP TABLE patients")) ∈
      (runScript envDrop).1 :=
  (C8_verbatim_execution envDrop (strLit "DROP TABLE patients")
    (by decide) rfl rfl rfl (by decide) rfl).1

/-! ## Claim C4 -/

/-- C4: when executing the generated SQL raises, the error is caught and
displayed as a user-visible banner and the run still completes normally:
no exception escapes the action handler. -/
theorem C4_exec_error_caught (env : Env) (response m : Str)
    (hk : pyStrFalsy env.apiKey = false)
    (hdb : env.dbOpen = Except.ok ())
    (hllm : env.llmInit = Except.ok ())
    (hb : env.buttonPressed = true)
    (hq : pyStrip env.userQuery ≠ [])
    (hresp : env.chainResponse = Except.ok response)
    (hexec : env.dbExec (extract_sql response) = ExecResult.fail m) :
    Event.errorMsg (sqlErrPre ++ m) ∈ (runScript env).1 ∧
    (runScript env).2 = Status.completed := by
  rw [runScript_action env hk hdb hllm hb]
  rw [runQueryAction_execFail env response m hq hresp hexec]
  constructor
  · simp
  · rfl

/-- C4 (witness): the caught-error theorem on a failing table lookup. -/
theorem C4_exec_error_caught_witness :
    Event.errorMsg (sqlErrPre ++ strLit "no such table: treatments") ∈
      (runScript envExecFail).1 ∧
    (runScript envExecFail).2 = Status.completed :=
  C4_exec_error_caught envExecFail demoResponse
    (strLit "no such table: treatments")
    (by decide) rfl rfl rfl (by decide) rfl rfl

/-! ## Claim C5 -/

/-- C5: a successful execution with zero rows shows the informational
no-results message and renders no table at all. -/
theorem C5_zero_rows_info (env : Env) (response : Str) (cols : List Str)
    (hk : pyStrFalsy env.apiKey = false)
    (hdb : env.dbOpen = Except.ok ())
    (hllm : env.llmInit = Except.ok ())
    (hb : env.buttonPressed = true)
    (hq : pyStrip env.userQuery ≠ [])
    (hresp : env.chainResponse = Except.ok response)
    (hexec : env.dbExec (extract_sql response) =
      ExecResult.ok [] (some cols)) :
    Event.info noResultsMsg ∈ (runScript env).1 ∧
    (∀ rows headers w,
      Event.showTable rows headers w ∉ (runScript env).1) := by
  rw [runScript_action env hk hdb hllm hb]
  rw [runQueryAction_ok env response [] cols hq hresp hexec]
  constructor
  · simp [displayBlock]
  · intro rows headers w
    simp [stagePrefix, displayBlock]

/-- C5 (witness): the zero-rows theorem on the demo query. -/
theorem C5_zero_rows_info_witness :
    Event.info noResultsMsg ∈ (runScript envZeroRows).1 :=
  (C5_zero_rows_info envZeroRows demoResponse demoCols
    (by decide) rfl rfl rfl (by decide) rfl rfl).1

/-! ## Claim C3 -/

/-- C3 (counterexample): the claim says the failure branch leaves the
execution connection open.  In the environment where execution fails the
run shows the execution-error banner and the very same branch closes the
connection: `Event.closeConn` follows the banner in the trace (line 114
of `4app.py` calls `conn.close()` inside the except block). -/
theorem C3_counterexample :
    (runScript envExecFail).1 =
      stagePrefix ++
        [Event.modelCall (strLit "Show total treatment cost by department"),
         Event.markdown genSqlHdr,
         Event.codeBlock (extract_sql demoResponse),
         Event.connectDB, Event.execSQL (extract_sql demoResponse),
         Event.errorMsg (sqlErrPre ++ strLit "no such table: treatments"),
         Event.closeConn,
         Event.markdown resultsHdr,
         Event.errorMsg (outerErrPre ++ nameErrRowsMsg)] ∧
    Event.closeConn ∈ (runScript envExecFail).1 := by
  constructor
  · decide
  · decide

/-- C3 (amended): on execution failure the error is shown and the
connection opened for execution IS closed in the failure branch: the
trace holds exactly one connection open and exactly one connection
close. -/
theorem C3_exec_fail_closes (env : Env) (response m : Str)
    (hk : pyStrFalsy env.apiKey = false)
    (hdb : env.dbOpen = Except.ok ())
    (hllm : env.llmInit = Except.ok ())
    (hb : env.buttonPressed = true)
    (hq : pyStrip env.userQuery ≠ [])
    (hresp : env.chainResponse = Except.ok response)
    (hexec : env.dbExec (extract_sql response) = ExecResult.fail m) :
    Event.errorMsg (sqlErrPre ++ m) ∈ (runScript env).1 ∧
    (runScript env).1.count Event.connectDB = 1 ∧
    (runScript env).1.count Event.closeConn = 1 := by
  rw [runScript_action env hk hdb hllm hb]
  rw [runQueryAction_execFail env response m hq hresp hexec]
  refine ⟨by simp, ?_, ?_⟩ <;>
    simp [stagePrefix, List.count_append, List.count_cons]

/-- C3 (witness): the amended theorem on the failing table lookup. -/
theorem C3_exec_fail_closes_witness :
    (runScript envExecFail).1.count Event.closeConn = 1 :=
  (C3_exec_fail_closes envExecFail demoResponse
    (strLit "no such table: treatments")
    (by decide) rfl rfl rfl (by decide) rfl rfl).2.2

/-! ## Claim C6 -/

/-- C6: the claim says the rendered table has M named columns matching the
query's column order.  In the fully successful demo environment sqlite
reports the two column names, yet both rendered tables carry the default
positional headers `0, 1`: `columns` is computed at line 103 of `4app.py`
but never passed to `st.dataframe`, so no table with the query's column
names is ever rendered.  The row count is preserved (both events carry the
two fetched rows). -/
theorem C6_positional_headers :
    Event.showTable demoRows [Header.pos 0, Header.pos 1] false ∈
      (runScript baseEnv).1 ∧
    Event.showTable demoRows [Header.pos 0, Header.pos 1] true ∈
      (runScript baseEnv).1 ∧
    Event.showTable demoRows (demoCols.map Header.name) false ∉
      (runScript baseEnv).1 ∧
    Event.showTable demoRows (demoCols.map Header.name) true ∉
      (runScript baseEnv).1 ∧
    demoRows.length = 2 ∧
    [Header.pos 0, Header.pos 1] ≠ demoCols.map Header.name := by
  refine ⟨by decide, by decide, by decide, by decide, by decide, by decide⟩

/-! ## Claim C9 -/

/-- C9 (counterexample): the claim says every failed execution makes the
duplicated block raise a NameError reported as an additional banner.  When
the model returns a statement with no result data, execute succeeds,
`rows` is assigned the empty fetch, and only then does column extraction
raise: the execution-error banner is shown, yet no NameError banner
appears and the duplicated block renders the no-results state instead. -/
theorem C9_counterexample :
    Event.errorMsg (sqlErrPre ++ noneTypeMsg) ∈ (runScript envDescNone).1 ∧
    Event.errorMsg (outerErrPre ++ nameErrRowsMsg) ∉
      (runScript envDescNone).1 ∧
    Event.info noResultsMsg ∈ (runScript envDescNone).1 := by
  refine ⟨by decide, by decide, by decide⟩

/-- C9 (amended): the duplicated results block always runs after the inner
try/except.  On a successful execution with nonzero rows the table is
rendered a second time; when `conn.execute` itself raises, `rows` was
never assigned and the duplicated block's NameError is reported by the
outer handler as an additional banner; but when the failure happens while
extracting column names (missing cursor description), `rows` is already
assigned and no NameError banner appears. -/
theorem C9_duplicate_display (env : Env) (response : Str)
    (hk : pyStrFalsy env.apiKey = false)
    (hdb : env.dbOpen = Except.ok ())
    (hllm : env.llmInit = Except.ok ())
    (hb : env.buttonPressed = true)
    (hq : pyStrip env.userQuery ≠ [])
    (hresp : env.chainResponse = Except.ok response) :
    (∀ rows cols,
      env.dbExec (extract_sql response) = ExecResult.ok rows (some cols) →
      rows ≠ [] →
      Event.showTable rows (defaultHeaders rows) false ∈
        (runScript env).1 ∧
      Event.showTable rows (defaultHeaders rows) true ∈
        (runScript env).1) ∧
    (∀ m, env.dbExec (extract_sql response) = ExecResult.fail m →
      Event.errorMsg (outerErrPre ++ nameErrRowsMsg) ∈ (runScript env).1) ∧
    (∀ rows,
      env.dbExec (extract_sql response) = ExecResult.ok rows none →
      Event.errorMsg (outerErrPre ++ nameErrRowsMsg) ∉
        (runScript env).1) := by
  rw [runScript_action env hk hdb hllm hb]
  refine ⟨?_, ?_, ?_⟩
  · intro rows cols hexec hrows
    rw [runQueryAction_ok env response rows cols hq hresp hexec]
    constructor <;> simp [displayBlock, hrows]
  · intro m hexec
    rw [runQueryAction_execFail env response m hq hresp hexec]
    simp
  · intro rows hexec
    rw [runQueryAction_descNone env response rows hq hresp hexec]
    simp [stagePrefix, errorMsg_not_mem_displayBlock]
    decide

/-- C9 (witness): in the successful demo environment the duplicated block
renders the table a second time with the container-width option. -/
theorem C9_duplicate_display_witness :
    Event.showTable demoRows (defaultHeaders demoRows) true ∈
      (runScript baseEnv).1 :=
  ((C9_duplicate_display baseEnv demoResponse
      (by decide) rfl rfl rfl (by decide) rfl).1
    demoRows demoCols rfl (by decide)).2

end HospitalNLQ
